import Mathlib

/-!
Shallow embedding of the frame-pacing and PRNG utility layer of the
asteroids-game repository (src/time.h, src/time.cpp, src/prng.h), together
with theorems settling the specification claims about it.

Machine integers: all C++ values involved are uint64_t; they are embedded as
Nat, with an explicit `% 2 ^ 64` exactly where the C++ operation can wrap
(multiplications). Fallible code (the switch-default throw paths) is embedded
as Except.
-/

namespace Engine

/-- The modulus of C++ uint64_t arithmetic. -/
def U64MOD : Nat := 2 ^ 64

namespace Time

/-- The TimeUnit enum of src/time.h (enumerator values 0..5). -/
inductive TimeUnit where
  | NANOSECONDS
  | MICROSECONDS
  | MILLISECONDS
  | SECONDS
  | MINUTES
  | HOURS
deriving DecidableEq

/-- from_seconds of src/time.h: converts a second count into the given unit.
Multiplications are uint64_t and may wrap. -/
def from_seconds (seconds : Nat) : TimeUnit → Nat
  | .NANOSECONDS => seconds * 1000000000 % U64MOD
  | .MICROSECONDS => seconds * 1000000 % U64MOD
  | .MILLISECONDS => seconds * 1000 % U64MOD
  | .SECONDS => seconds
  | .MINUTES => seconds / 60
  | .HOURS => seconds / 3600

/-- from_nanoseconds of src/time.h: converts a nanosecond count into the given
unit by truncating division. -/
def from_nanoseconds (nanos : Nat) : TimeUnit → Nat
  | .NANOSECONDS => nanos
  | .MICROSECONDS => nanos / 1000
  | .MILLISECONDS => nanos / 1000000
  | .SECONDS => nanos / 1000000000
  | .MINUTES => nanos / 60000000000
  | .HOURS => nanos / 3600000000000

/-- to_nanoseconds of src/time.h: converts a unit-scaled count into
nanoseconds. Multiplications are uint64_t and may wrap. -/
def to_nanoseconds (units : Nat) : TimeUnit → Nat
  | .NANOSECONDS => units
  | .MICROSECONDS => units * 1000 % U64MOD
  | .MILLISECONDS => units * 1000000 % U64MOD
  | .SECONDS => units * 1000000000 % U64MOD
  | .MINUTES => units * 60000000000 % U64MOD
  | .HOURS => units * 3600000000000 % U64MOD

/-- The C++ TimeUnit argument can also hold non-enumerator values of its
underlying integer type; the switch statements then take the default branch
and throw. These code-level variants take the raw enumerator value (0..5 for
the six enumerators) and embed the throw as Except.error. Raw-value variant
of from_seconds. -/
def from_seconds_code (seconds : Nat) : Nat → Except String Nat
  | 0 => .ok (seconds * 1000000000 % U64MOD)
  | 1 => .ok (seconds * 1000000 % U64MOD)
  | 2 => .ok (seconds * 1000 % U64MOD)
  | 3 => .ok seconds
  | 4 => .ok (seconds / 60)
  | 5 => .ok (seconds / 3600)
  | _ => .error "Unsupported time unit"

/-- Raw-enumerator-value variant of from_nanoseconds; the switch default
(throw) is Except.error. -/
def from_nanoseconds_code (nanos : Nat) : Nat → Except String Nat
  | 0 => .ok nanos
  | 1 => .ok (nanos / 1000)
  | 2 => .ok (nanos / 1000000)
  | 3 => .ok (nanos / 1000000000)
  | 4 => .ok (nanos / 60000000000)
  | 5 => .ok (nanos / 3600000000000)
  | _ => .error "Unsupported time unit"

/-- Raw-enumerator-value variant of to_nanoseconds; the switch default
(throw) is Except.error. -/
def to_nanoseconds_code (units : Nat) : Nat → Except String Nat
  | 0 => .ok units
  | 1 => .ok (units * 1000 % U64MOD)
  | 2 => .ok (units * 1000000 % U64MOD)
  | 3 => .ok (units * 1000000000 % U64MOD)
  | 4 => .ok (units * 60000000000 % U64MOD)
  | 5 => .ok (units * 3600000000000 % U64MOD)
  | _ => .error "Unsupported time unit"

/-- The Instant class of src/time.h: nanoseconds from epoch, stored as
uint64_t. -/
structure Instant where
  epoch_ns_ : Nat
deriving DecidableEq

/-- Instant::of. -/
def Instant.of (units : Nat) (time_unit : TimeUnit) : Instant :=
  ⟨to_nanoseconds units time_unit⟩

/-- Instant::nanosecond_value. -/
def Instant.nanosecond_value (i : Instant) : Nat := i.epoch_ns_

/-- Instant::value. -/
def Instant.value (i : Instant) (time_unit : TimeUnit) : Nat :=
  from_nanoseconds i.epoch_ns_ time_unit

/-- The Duration class of src/time.h: a uint64_t nanosecond count. -/
structure Duration where
  duration_ns_ : Nat
deriving DecidableEq

/-- Duration::nanosecond_value. -/
def Duration.nanosecond_value (d : Duration) : Nat := d.duration_ns_

/-- Duration::between, src/time.cpp lines 50-55: the branch on which operand
is larger yields the absolute difference of the two nanosecond values. -/
def Duration.between (start finish : Instant) : Duration :=
  if finish.nanosecond_value > start.nanosecond_value then
    ⟨finish.nanosecond_value - start.nanosecond_value⟩
  else
    ⟨start.nanosecond_value - finish.nanosecond_value⟩

/-- Duration::from calls Instant::now(); the clock sample is passed
explicitly here as the now argument. -/
def Duration.fromInstant (start now : Instant) : Duration :=
  Duration.between start now

/-- Duration::of. -/
def Duration.of (units : Nat) (time_unit : TimeUnit) : Duration :=
  ⟨to_nanoseconds units time_unit⟩

/-- Duration::value. -/
def Duration.value (d : Duration) (time_unit : TimeUnit) : Nat :=
  from_nanoseconds d.duration_ns_ time_unit

/-- Comparison operator>= on Duration (src/time.cpp lines 102-105), as used
by TickLimiter::should_tick. -/
def Duration.ge (lhs rhs : Duration) : Bool :=
  decide (rhs.nanosecond_value ≤ lhs.nanosecond_value)

/-- The TickLimiter class of src/time.h. -/
structure TickLimiter where
  target_minimum_tick_duration_ : Duration
  last_tick_ : Instant
deriving DecidableEq

/-- TickLimiter::TickLimiter, src/time.cpp lines 130-135: divides one second
in nanoseconds by the target rate (truncating uint64_t division) and zeroes
the last tick. Total version, meaningful for target_ticks_per_second > 0;
division by zero (undefined behavior in C++) is covered by
TickLimiter.mk?. -/
def TickLimiter.init (target_ticks_per_second : Nat) : TickLimiter :=
  let x := to_nanoseconds 1 .SECONDS / target_ticks_per_second
  { target_minimum_tick_duration_ := Duration.of x .NANOSECONDS
    last_tick_ := Instant.of 0 .NANOSECONDS }

/-- The TickLimiter constructor as a partial function: the C++ code performs
the division 1e9 / target_ticks_per_second with no zero check, which is
undefined behavior at zero; the undefined case is embedded as none. -/
def TickLimiter.mk? (target_ticks_per_second : Nat) : Option TickLimiter :=
  if target_ticks_per_second = 0 then none
  else some (TickLimiter.init target_ticks_per_second)

/-- TickLimiter::should_tick, src/time.cpp lines 137-141; the Instant::now()
sample inside Duration::from is passed explicitly as now. -/
def TickLimiter.should_tick (tl : TickLimiter) (now : Instant) : Bool :=
  let elapsed := Duration.fromInstant tl.last_tick_ now
  Duration.ge elapsed tl.target_minimum_tick_duration_

/-- TickLimiter::tick, src/time.cpp lines 148-151; the Instant::now() sample
is passed explicitly as now. -/
def TickLimiter.tick (tl : TickLimiter) (now : Instant) : TickLimiter :=
  { tl with last_tick_ := now }

/-- TickLimiter::time_from_last_tick, with the clock sample explicit. -/
def TickLimiter.time_from_last_tick (tl : TickLimiter) (now : Instant) :
    Duration :=
  Duration.fromInstant tl.last_tick_ now

/-- The nanosecond factor of each TimeUnit (specification-side helper for
stating round-trip properties; not a source function). -/
def unit_factor : TimeUnit → Nat
  | .NANOSECONDS => 1
  | .MICROSECONDS => 1000
  | .MILLISECONDS => 1000000
  | .SECONDS => 1000000000
  | .MINUTES => 60000000000
  | .HOURS => 3600000000000

end Time

namespace Prng

/-- Modelled from the spec: the shared 64-bit engine (std::mt19937_64 in
src/prng.h) is standard-library code, not part of this repository; the spec
describes it as a deterministic seeded generator whose whole state is reset
by seed(). It is embedded as a deterministic counter-based 64-bit generator
(a splitmix64-style step); the claims depend only on determinism, state
consumption and the seed reset, never on the exact output values. -/
structure GenState where
  seed : Nat
  index : Nat
deriving DecidableEq

/-- A 64-bit finalizing mixer producing one raw engine output word. -/
def mix64 (x : Nat) : Nat :=
  let z := (x ^^^ (x >>> 30)) * 0xBF58476D1CE4E5B9 % Engine.U64MOD
  let z := (z ^^^ (z >>> 27)) * 0x94D049BB133111EB % Engine.U64MOD
  z ^^^ (z >>> 31)

/-- The raw 64-bit engine output at the current engine position. -/
def gen_raw (g : GenState) : Nat :=
  mix64 ((g.seed + (g.index + 1) * 0x9E3779B97F4A7C15) % Engine.U64MOD)

/-- One engine step: produce the raw output and consume generator state. -/
def gen_next (g : GenState) : Nat × GenState :=
  (gen_raw g, ⟨g.seed, g.index + 1⟩)

/-- PrngSource::set_fixed_seed (src/prng.h line 84): gen_.seed(seed)
reinitializes the whole engine state as a function of the seed alone,
discarding all prior state. -/
def PrngSource.set_fixed_seed (seed : Nat) (_g : GenState) : GenState :=
  ⟨seed % Engine.U64MOD, 0⟩

/-- The Prng class of src/prng.h: a uniform_int_distribution configured with
inclusive bounds min..max (src/prng.h lines 52-57). Values of the arithmetic
type T are embedded as Int, covering signed and unsigned instantiations. -/
structure Prng where
  min : Int
  max : Int
deriving DecidableEq

/-- Prng::create (src/prng.h line 30): stores the bounds, with min
defaulting to 0 at call sites. -/
def Prng.create (max min : Int) : Prng := ⟨min, max⟩

/-- Modelled from the spec: std::uniform_int_distribution is
standard-library code, not part of this repository; its contract, as the
spec states it, is that a draw yields one value in [min, max] inclusive.
The raw 64-bit engine output is reduced into the inclusive range. -/
def dist_draw (min max : Int) (raw : Nat) : Int :=
  min + (raw : Int) % (max - min + 1)

/-- Prng::next (src/prng.h lines 39-43): one draw through the distribution
against the shared engine; consumes engine state. -/
def Prng.next (p : Prng) (g : GenState) : Int × GenState :=
  let r := gen_next g
  (dist_draw p.min p.max r.1, r.2)

/-- N successive Prng::next draws, threading the shared engine state. -/
def Prng.drawN (p : Prng) (g : GenState) : Nat → List Int
  | 0 => []
  | n + 1 =>
    let r := p.next g
    r.1 :: Prng.drawN p r.2 n

/-- Per-process allocation state for PrngSource objects: the function-local
static unique_ptr slot inside PrngSource::instance (src/prng.h lines 75-82),
a counter supplying fresh object identities, and the identities of all live
PrngSource objects. -/
structure ProcessState where
  singleton_slot : Option Nat
  next_id : Nat
  live : List Nat
deriving DecidableEq

/-- The PrngSource default constructor (src/prng.h lines 69-73). It is
public (std::make_unique requires that), so a client can invoke it directly;
it allocates a new live object and returns its identity. -/
def construct_prng_source (s : ProcessState) : Nat × ProcessState :=
  (s.next_id, { s with next_id := s.next_id + 1, live := s.live ++ [s.next_id] })

/-- PrngSource::instance (src/prng.h lines 75-82): if the static slot is
empty, construct a PrngSource and store it; return the stored object.
(instance is a Lean keyword, hence the name get_instance.) -/
def PrngSource.get_instance (s : ProcessState) : Nat × ProcessState :=
  match s.singleton_slot with
  | some id => (id, s)
  | none =>
    let r := construct_prng_source s
    (r.1, { r.2 with singleton_slot := some r.1 })

/-- The process state at program start: no PrngSource constructed yet. -/
def ProcessState.initial : ProcessState := ⟨none, 0, []⟩

end Prng

end Engine

/-- The nanosecond value of Duration::between, written without the branch. -/
theorem Engine.Time.Duration.between_ns (a b : Engine.Time.Instant) :
    (Engine.Time.Duration.between a b).duration_ns_ =
      if a.epoch_ns_ < b.epoch_ns_ then b.epoch_ns_ - a.epoch_ns_
      else a.epoch_ns_ - b.epoch_ns_ := by
  unfold Engine.Time.Duration.between Engine.Time.Instant.nanosecond_value
  split <;> rfl

/-- Numeric value of the uint64_t modulus. -/
theorem Engine.U64MOD_eq : Engine.U64MOD = 18446744073709551616 := by
  norm_num [Engine.U64MOD]

/-- The target interval stored by the TickLimiter constructor is the
truncating division of one second in nanoseconds by the rate. -/
theorem Engine.Time.TickLimiter.init_target (n : Nat) :
    (Engine.Time.TickLimiter.init n).target_minimum_tick_duration_.duration_ns_
      = 1000000000 / n := by
  show Engine.Time.to_nanoseconds 1 .SECONDS / n = 1000000000 / n
  norm_num [Engine.Time.to_nanoseconds, Engine.U64MOD]

/-- The TickLimiter constructor zeroes the last tick instant. -/
theorem Engine.Time.TickLimiter.init_last (n : Nat) :
    (Engine.Time.TickLimiter.init n).last_tick_ = ⟨0⟩ := rfl

/-- should_tick, unfolded to the comparison it performs. -/
theorem Engine.Time.TickLimiter.should_tick_iff (tl : Engine.Time.TickLimiter)
    (now : Engine.Time.Instant) :
    tl.should_tick now = true ↔
      tl.target_minimum_tick_duration_.duration_ns_ ≤
        (Engine.Time.Duration.between tl.last_tick_ now).duration_ns_ := by
  unfold Engine.Time.TickLimiter.should_tick Engine.Time.Duration.fromInstant
    Engine.Time.Duration.ge Engine.Time.Duration.nanosecond_value
  exact decide_eq_true_iff

/-- C3: Duration::between is symmetric and returns the absolute difference
of the two nanosecond values (hence never negative, being a Nat). -/
theorem spec_C3_between_abs_symm (a b : Engine.Time.Instant) :
    Engine.Time.Duration.between a b = Engine.Time.Duration.between b a ∧
    ((Engine.Time.Duration.between a b).nanosecond_value : Int) =
      ((a.nanosecond_value : Int) - (b.nanosecond_value : Int)).natAbs := by
  have key : (Engine.Time.Duration.between a b).duration_ns_ =
      (Engine.Time.Duration.between b a).duration_ns_ ∧
      (((Engine.Time.Duration.between a b).duration_ns_ : Int) =
        ((a.epoch_ns_ : Int) - (b.epoch_ns_ : Int)).natAbs) := by
    have ha := Engine.Time.Duration.between_ns a b
    have hb := Engine.Time.Duration.between_ns b a
    split_ifs at ha hb <;> omega
  constructor
  · calc Engine.Time.Duration.between a b
        = ⟨(Engine.Time.Duration.between a b).duration_ns_⟩ := rfl
      _ = ⟨(Engine.Time.Duration.between b a).duration_ns_⟩ := by rw [key.1]
      _ = Engine.Time.Duration.between b a := rfl
  · exact key.2

/-- C7: the TickLimiter constructor stores exactly floor(1e9 / n)
nanoseconds, and when n does not divide 1e9 the stored interval is strictly
smaller than the exact rational value 1e9 / n. -/
theorem spec_C7_ctor_truncating_division (n : Nat) (h : 0 < n) :
    (Engine.Time.TickLimiter.init n).target_minimum_tick_duration_.nanosecond_value
      = 1000000000 / n ∧
    (¬ n ∣ 1000000000 →
      (((Engine.Time.TickLimiter.init n).target_minimum_tick_duration_.nanosecond_value : ℚ)
        < (1000000000 : ℚ) / (n : ℚ))) := by
  have hstore := Engine.Time.TickLimiter.init_target n
  refine ⟨hstore, fun hnd => ?_⟩
  have hle : 1000000000 / n * n ≤ 1000000000 := Nat.div_mul_le_self _ _
  have hne : 1000000000 / n * n ≠ 1000000000 := fun hc =>
    hnd (Dvd.intro_left (1000000000 / n) hc)
  have hlt : 1000000000 / n * n < 1000000000 := lt_of_le_of_ne hle hne
  have hn0 : (0 : ℚ) < (n : ℚ) := by exact_mod_cast h
  rw [show Engine.Time.Duration.nanosecond_value = Engine.Time.Duration.duration_ns_ from rfl,
    hstore, lt_div_iff₀ hn0]
  exact_mod_cast hlt

/-- Witness for C7 at the rate 30 used by the demo program. -/
theorem spec_C7_witness :
    0 < 30 ∧
    ((Engine.Time.TickLimiter.init 30).target_minimum_tick_duration_.nanosecond_value
        = 1000000000 / 30 ∧
      (¬ (30 : Nat) ∣ 1000000000 →
        (((Engine.Time.TickLimiter.init 30).target_minimum_tick_duration_.nanosecond_value : ℚ)
          < (1000000000 : ℚ) / ((30 : Nat) : ℚ)))) :=
  ⟨by decide, spec_C7_ctor_truncating_division 30 (by decide)⟩

/-- C6: each conversion helper, applied to a raw TimeUnit value, returns a
value exactly when the value is one of the six enumerators (codes 0..5), and
takes the fatal default branch (throw, with no recoverable error path) for
every other value. -/
theorem spec_C6_unit_switch_totality (v u : Nat) :
    ((∃ y, Engine.Time.to_nanoseconds_code v u = .ok y) ↔ u < 6) ∧
    ((Engine.Time.to_nanoseconds_code v u = .error "Unsupported time unit") ↔ 6 ≤ u) ∧
    ((∃ y, Engine.Time.from_nanoseconds_code v u = .ok y) ↔ u < 6) ∧
    ((Engine.Time.from_nanoseconds_code v u = .error "Unsupported time unit") ↔ 6 ≤ u) ∧
    ((∃ y, Engine.Time.from_seconds_code v u = .ok y) ↔ u < 6) ∧
    ((Engine.Time.from_seconds_code v u = .error "Unsupported time unit") ↔ 6 ≤ u) := by
  rcases u with _ | _ | _ | _ | _ | _ | u <;>
    simp [Engine.Time.to_nanoseconds_code, Engine.Time.from_nanoseconds_code,
      Engine.Time.from_seconds_code]

/-- C8: for every unit U the round-trip through Duration::of and
Duration::value floors the nanosecond value to a multiple of the unit factor:
exact for NANOSECONDS, and never off by a full unit for the coarser units. -/
theorem spec_C8_unit_roundtrip (d : Engine.Time.Duration)
    (U : Engine.Time.TimeUnit) (hd : d.duration_ns_ < Engine.U64MOD) :
    (Engine.Time.Duration.of (d.value U) U).nanosecond_value =
      d.nanosecond_value / Engine.Time.unit_factor U * Engine.Time.unit_factor U ∧
    (U = .NANOSECONDS → Engine.Time.Duration.of (d.value U) U = d) ∧
    (Engine.Time.Duration.of (d.value U) U).nanosecond_value ≤ d.nanosecond_value ∧
    d.nanosecond_value - (Engine.Time.Duration.of (d.value U) U).nanosecond_value <
      Engine.Time.unit_factor U := by
  rw [Engine.U64MOD_eq] at hd
  cases U <;>
    simp [Engine.Time.Duration.of, Engine.Time.Duration.value,
      Engine.Time.Duration.nanosecond_value, Engine.Time.to_nanoseconds,
      Engine.Time.from_nanoseconds, Engine.Time.unit_factor,
      Engine.U64MOD_eq] <;> omega

/-- Witness for C8 with a concrete duration and the MILLISECONDS unit. -/
theorem spec_C8_witness :
    (Engine.Time.Duration.mk 123456789).duration_ns_ < Engine.U64MOD ∧
    ((Engine.Time.Duration.of ((Engine.Time.Duration.mk 123456789).value .MILLISECONDS)
          .MILLISECONDS).nanosecond_value =
        (Engine.Time.Duration.mk 123456789).nanosecond_value /
            Engine.Time.unit_factor .MILLISECONDS *
          Engine.Time.unit_factor .MILLISECONDS ∧
      (Engine.Time.TimeUnit.MILLISECONDS = .NANOSECONDS →
        Engine.Time.Duration.of ((Engine.Time.Duration.mk 123456789).value .MILLISECONDS)
            .MILLISECONDS = ⟨123456789⟩) ∧
      (Engine.Time.Duration.of ((Engine.Time.Duration.mk 123456789).value .MILLISECONDS)
            .MILLISECONDS).nanosecond_value ≤
        (Engine.Time.Duration.mk 123456789).nanosecond_value ∧
      (Engine.Time.Duration.mk 123456789).nanosecond_value -
          (Engine.Time.Duration.of ((Engine.Time.Duration.mk 123456789).value .MILLISECONDS)
            .MILLISECONDS).nanosecond_value <
        Engine.Time.unit_factor .MILLISECONDS) :=
  ⟨by decide, spec_C8_unit_roundtrip ⟨123456789⟩ .MILLISECONDS (by decide)⟩

/-- C10: the embedded constructor succeeds exactly when the target rate is at
least 1; at rate 0 the C++ code divides by zero with no check (undefined
behavior, embedded as none), and on success the stored interval is the
truncated division. -/
theorem spec_C10_ctor_division_by_zero (n : Nat) :
    ((Engine.Time.TickLimiter.mk? n).isSome ↔ 1 ≤ n) ∧
    (∀ tl, Engine.Time.TickLimiter.mk? n = some tl →
      tl.target_minimum_tick_duration_.nanosecond_value = 1000000000 / n) := by
  unfold Engine.Time.TickLimiter.mk?
  constructor
  · split <;> simp <;> omega
  · intro tl htl
    split at htl
    · cases htl
    · cases htl
      exact Engine.Time.TickLimiter.init_target n

/-- Witness for C10 at a concrete admissible rate. -/
theorem spec_C10_witness :
    ((Engine.Time.TickLimiter.mk? 5).isSome ↔ 1 ≤ 5) ∧
    (Engine.Time.TickLimiter.init 5).target_minimum_tick_duration_.nanosecond_value
      = 1000000000 / 5 :=
  ⟨(spec_C10_ctor_division_by_zero 5).1,
    (spec_C10_ctor_division_by_zero 5).2 (Engine.Time.TickLimiter.init 5) rfl⟩

/-- C2: a freshly constructed TickLimiter has last_tick_ equal to the
nanosecond-zero Instant, and the first should_tick() call returns true
provided the current clock reading is at least floor(1e9 / n) ns. -/
theorem spec_C2_first_should_tick (n : Nat) (_h : 0 < n)
    (now : Engine.Time.Instant) (hnow : 1000000000 / n ≤ now.epoch_ns_) :
    (Engine.Time.TickLimiter.init n).last_tick_ = ⟨0⟩ ∧
    (Engine.Time.TickLimiter.init n).should_tick now = true := by
  refine ⟨Engine.Time.TickLimiter.init_last n, ?_⟩
  rw [Engine.Time.TickLimiter.should_tick_iff, Engine.Time.TickLimiter.init_target,
    Engine.Time.TickLimiter.init_last]
  have hb := Engine.Time.Duration.between_ns ⟨0⟩ now
  simp only [show (⟨0⟩ : Engine.Time.Instant).epoch_ns_ = 0 from rfl] at hb
  split_ifs at hb <;> omega

/-- Witness for C2 at rate 30 with the clock exactly at the target interval. -/
theorem spec_C2_witness :
    0 < 30 ∧
    1000000000 / 30 ≤ (Engine.Time.Instant.mk 33333333).epoch_ns_ ∧
    ((Engine.Time.TickLimiter.init 30).last_tick_ = ⟨0⟩ ∧
      (Engine.Time.TickLimiter.init 30).should_tick ⟨33333333⟩ = true) :=
  ⟨by decide, by decide,
    spec_C2_first_should_tick 30 (by decide) ⟨33333333⟩ (by decide)⟩

/-- C1 as stated is false: for a rate above 1e9 the target interval truncates
to 0 nanoseconds, so should_tick() is true immediately after tick(). Concrete
counterexample at rate 2000000000, with tick() and should_tick() both at
clock value 5 ns. -/
theorem spec_C1_counterexample :
    ((Engine.Time.TickLimiter.init 2000000000).tick ⟨5⟩).should_tick ⟨5⟩ = true := by
  decide

/-- C1 amended: for rates 0 < n <= 1e9 (so that the truncated interval
floor(1e9 / n) is at least 1 ns), should_tick() is false immediately after
tick() at time t and, for a monotone clock, becomes true exactly when at
least floor(1e9 / n) nanoseconds have elapsed since t. -/
theorem spec_C1_tick_gate (n : Nat) (h1 : 0 < n) (h2 : n ≤ 1000000000)
    (t now : Engine.Time.Instant) (hmono : t.epoch_ns_ ≤ now.epoch_ns_) :
    ((Engine.Time.TickLimiter.init n).tick t).should_tick t = false ∧
    (((Engine.Time.TickLimiter.init n).tick t).should_tick now = true ↔
      1000000000 / n ≤ now.epoch_ns_ - t.epoch_ns_) := by
  have htarget : ((Engine.Time.TickLimiter.init n).tick t).target_minimum_tick_duration_.duration_ns_
      = 1000000000 / n := Engine.Time.TickLimiter.init_target n
  have hlast : ((Engine.Time.TickLimiter.init n).tick t).last_tick_ = t := rfl
  constructor
  · rw [← Bool.not_eq_true, Engine.Time.TickLimiter.should_tick_iff, htarget, hlast]
    have hb := Engine.Time.Duration.between_ns t t
    have hdiv : 1 ≤ 1000000000 / n := (Nat.one_le_div_iff h1).mpr h2
    split_ifs at hb <;> omega
  · rw [Engine.Time.TickLimiter.should_tick_iff, htarget, hlast]
    have hb := Engine.Time.Duration.between_ns t now
    split_ifs at hb <;> omega

/-- Witness for the amended C1: the spec scenario, rate 30, tick at 100 ns,
query 34 ms later. -/
theorem spec_C1_witness :
    0 < 30 ∧ (30 : Nat) ≤ 1000000000 ∧
    (Engine.Time.Instant.mk 100).epoch_ns_ ≤ (Engine.Time.Instant.mk 34000100).epoch_ns_ ∧
    (((Engine.Time.TickLimiter.init 30).tick ⟨100⟩).should_tick ⟨100⟩ = false ∧
      (((Engine.Time.TickLimiter.init 30).tick ⟨100⟩).should_tick ⟨34000100⟩ = true ↔
        1000000000 / 30 ≤
          (Engine.Time.Instant.mk 34000100).epoch_ns_ -
            (Engine.Time.Instant.mk 100).epoch_ns_)) :=
  ⟨by decide, by decide, by decide,
    spec_C1_tick_gate 30 (by decide) (by decide) ⟨100⟩ ⟨34000100⟩ (by decide)⟩

/-- C4: every value drawn by a Prng created with bounds min <= max lies in
[min, max] inclusive, for every engine state (covering min == max, the byte
range 0..255, and full-natural-range instantiations of the value type). -/
theorem spec_C4_next_in_bounds (min max : Int) (h : min ≤ max)
    (g : Engine.Prng.GenState) :
    min ≤ ((Engine.Prng.Prng.create max min).next g).1 ∧
    ((Engine.Prng.Prng.create max min).next g).1 ≤ max := by
  have h1 : (0 : Int) ≤ (Engine.Prng.gen_raw g : Int) % (max - min + 1) :=
    Int.emod_nonneg _ (by omega)
  have h2 : (Engine.Prng.gen_raw g : Int) % (max - min + 1) < max - min + 1 :=
    Int.emod_lt_of_pos _ (by omega)
  show min ≤ Engine.Prng.dist_draw min max (Engine.Prng.gen_raw g) ∧
    Engine.Prng.dist_draw min max (Engine.Prng.gen_raw g) ≤ max
  unfold Engine.Prng.dist_draw
  omega

/-- Witness for C4 on the byte range 0..255 at a concrete engine state. -/
theorem spec_C4_witness :
    (0 : Int) ≤ 255 ∧
    ((0 : Int) ≤ ((Engine.Prng.Prng.create 255 0).next ⟨12345, 0⟩).1 ∧
      ((Engine.Prng.Prng.create 255 0).next ⟨12345, 0⟩).1 ≤ 255) :=
  ⟨by decide, spec_C4_next_in_bounds 0 255 (by decide) ⟨12345, 0⟩⟩

/-- C5: after set_fixed_seed(S) the draw sequence is a deterministic
function of S alone: two reseed-then-draw runs of N draws, started from
arbitrary (possibly different) prior engine states, yield identical
sequences. -/
theorem spec_C5_reseed_determinism (g1 g2 : Engine.Prng.GenState)
    (S N : Nat) (p : Engine.Prng.Prng) :
    p.drawN (Engine.Prng.PrngSource.set_fixed_seed S g1) N =
      p.drawN (Engine.Prng.PrngSource.set_fixed_seed S g2) N := rfl

/-- C9 as stated is false: the PrngSource default constructor is public
(std::make_unique inside instance() requires it), so a client can construct
a PrngSource directly; after one direct construction and one instance() call
two live instances exist, and instance() returns an object distinct from the
directly constructed one. -/
theorem spec_C9_counterexample :
    ((Engine.Prng.PrngSource.get_instance
        (Engine.Prng.construct_prng_source
          Engine.Prng.ProcessState.initial).2).2.live.length = 2) ∧
    (Engine.Prng.PrngSource.get_instance
        (Engine.Prng.construct_prng_source
          Engine.Prng.ProcessState.initial).2).1 ≠
      (Engine.Prng.construct_prng_source Engine.Prng.ProcessState.initial).1 := by
  decide

/-- C9 amended: instance() is a lazy singleton accessor — from any state
whose static slot is empty it constructs exactly one new PrngSource, stores
it, and every later call returns that same object without changing state;
but the claim that no other way of obtaining a PrngSource exists fails,
since the public constructor creates further live instances. -/
theorem spec_C9_lazy_instance (s : Engine.Prng.ProcessState)
    (h : s.singleton_slot = none) :
    (Engine.Prng.PrngSource.get_instance s).2.singleton_slot =
      some (Engine.Prng.PrngSource.get_instance s).1 ∧
    (Engine.Prng.PrngSource.get_instance s).2.live =
      s.live ++ [(Engine.Prng.PrngSource.get_instance s).1] ∧
    (Engine.Prng.PrngSource.get_instance
        (Engine.Prng.PrngSource.get_instance s).2).1 =
      (Engine.Prng.PrngSource.get_instance s).1 ∧
    (Engine.Prng.PrngSource.get_instance
        (Engine.Prng.PrngSource.get_instance s).2).2 =
      (Engine.Prng.PrngSource.get_instance s).2 := by
  simp [Engine.Prng.PrngSource.get_instance, h,
    Engine.Prng.construct_prng_source]

/-- Witness for the amended C9 at the start-of-process state. -/
theorem spec_C9_witness :
    Engine.Prng.ProcessState.initial.singleton_slot = none ∧
    ((Engine.Prng.PrngSource.get_instance
        Engine.Prng.ProcessState.initial).2.singleton_slot =
      some (Engine.Prng.PrngSource.get_instance
        Engine.Prng.ProcessState.initial).1 ∧
    (Engine.Prng.PrngSource.get_instance
        Engine.Prng.ProcessState.initial).2.live =
      Engine.Prng.ProcessState.initial.live ++
        [(Engine.Prng.PrngSource.get_instance
          Engine.Prng.ProcessState.initial).1] ∧
    (Engine.Prng.PrngSource.get_instance
        (Engine.Prng.PrngSource.get_instance
          Engine.Prng.ProcessState.initial).2).1 =
      (Engine.Prng.PrngSource.get_instance
        Engine.Prng.ProcessState.initial).1 ∧
    (Engine.Prng.PrngSource.get_instance
        (Engine.Prng.PrngSource.get_instance
          Engine.Prng.ProcessState.initial).2).2 =
      (Engine.Prng.PrngSource.get_instance
        Engine.Prng.ProcessState.initial).2) :=
  ⟨rfl, spec_C9_lazy_instance Engine.Prng.ProcessState.initial rfl⟩
